import Mathlib

/-
Verification of QuantLibWrapper/Swaption.py.

Shallow embedding: dates are integers (serial day numbers), all real
arithmetic of the source is modelled exactly over the rationals.  The
external collaborators (the QuantLib pricing engine, the Bachelier
helper functions, the Hull-White analytic engine and the scipy root
finder) are not part of src/: where a claim needs them they are either
kept as abstract function parameters or modelled from the spec, as
indicated by doc comments.
-/

namespace QLW

/-- Day-count convention Actual/365 Fixed: the year fraction between two
dates (serial day numbers) is the number of days divided by 365. -/
def yearFraction (d1 d2 : ℤ) : ℚ := (d2 - d1) / 365

/-- Discount curve collaborator: a reference date and a discount-factor
function indexed by date, as used by the source via
`discHandle.referenceDate()` and `discHandle.discount(date)`. -/
structure Curve where
  referenceDate : ℤ
  discount : ℤ → ℚ

/-- One cashflow of the fixed leg, as the source reads it:
`cf.date()` and `cf.amount()`. -/
structure FixedCashFlow where
  date : ℤ
  amount : ℚ
deriving DecidableEq

/-- One coupon of the floating leg, as the source reads it through
`ql.as_coupon`: accrual start and end dates, accrual period, rate and
nominal. -/
structure FloatCoupon where
  accrualStartDate : ℤ
  accrualEndDate : ℤ
  accrualPeriod : ℚ
  rate : ℚ
  nominal : ℚ
deriving DecidableEq

/-- Direction of a vanilla swap. -/
inductive SwapType where
  | Payer : SwapType
  | Receiver : SwapType
deriving DecidableEq

/-- The underlying swap collaborator: legs, direction, fixed rate, fair
rate, annuity and the discount curve (both as pricing handle and as the
yield curve handed to the Hull-White model constructor). -/
structure Swap where
  fixedLeg : List FixedCashFlow
  floatingLeg : List FloatCoupon
  payerOrReceiver : SwapType
  fixedRate : ℚ
  fairRate : ℚ
  annuity : ℚ
  disc : Curve
  discYieldCurve : Curve

/-- A European swaption: an underlying swap, the (single) exercise date
and a normal volatility. -/
structure Swaption where
  underlyingSwap : Swap
  exerciseDate : ℤ
  normalVolatility : ℚ

/-- Default coupon used to totalize the source expressions
`floatingLeg()[0]` and `floatingLeg()[-1]`, which in Python presuppose a
nonempty floating leg. -/
def defaultCoupon : FloatCoupon :=
  { accrualStartDate := 0, accrualEndDate := 0, accrualPeriod := 0,
    rate := 0, nominal := 0 }

/-- Result record of `bondOptionDetails` (the details dict of the
source, with its dynamic keys turned into typed fields). -/
structure BondOptionDetails where
  callOrPut : ℚ
  strike : ℚ
  expiryTime : ℚ
  fixedLeg : List (ℚ × ℚ)
  floatLeg : List (ℚ × ℚ)
  payTimes : List ℚ
  cashFlows : List ℚ
deriving DecidableEq

/-- Entry of the float-leg table of `bondOptionDetails`: the accrual
START time paired with the curve-implied synthetic amount
`((1 + accrualPeriod*rate) * discount(accrualEnd)/discount(accrualStart) - 1) * nominal`. -/
def floatLegEntry (c : Curve) (cf : FloatCoupon) : ℚ × ℚ :=
  ( yearFraction c.referenceDate cf.accrualStartDate,
    ((1 + cf.accrualPeriod * cf.rate) *
       c.discount cf.accrualEndDate / c.discount cf.accrualStartDate - 1) *
      cf.nominal )

/-- Entry of the fixed-leg table of `bondOptionDetails`: the payment
time of the cashflow paired with its amount. -/
def fixedLegEntry (c : Curve) (cf : FixedCashFlow) : ℚ × ℚ :=
  ( yearFraction c.referenceDate cf.date, cf.amount )

/-- Embedding of `Swaption.bondOptionDetails` (Swaption.py lines 49-79),
line by line from the source. -/
def Swaption.bondOptionDetails (s : Swaption) : BondOptionDetails :=
  let swap := s.underlyingSwap
  let c := swap.disc
  let refDate := c.referenceDate
  let callOrPut : ℚ := if swap.payerOrReceiver = SwapType.Receiver then 1 else -1
  let strike : ℚ := 0
  let expiryTime := yearFraction refDate s.exerciseDate
  let fixedLeg := swap.fixedLeg.map (fixedLegEntry c)
  let floatLeg := swap.floatingLeg.map (floatLegEntry c)
  let payTimes :=
    [ ((floatLeg.headD (0, 0)).1) ]
      ++ floatLeg.map Prod.fst
      ++ fixedLeg.map Prod.fst
      ++ [ yearFraction refDate (swap.floatingLeg.getLastD defaultCoupon).accrualEndDate ]
  let cashFlows :=
    [ -(swap.floatingLeg.headD defaultCoupon).nominal ]
      ++ floatLeg.map (fun cf => -cf.2)
      ++ fixedLeg.map Prod.snd
      ++ [ (swap.floatingLeg.headD defaultCoupon).nominal ]
  { callOrPut := callOrPut, strike := strike, expiryTime := expiryTime,
    fixedLeg := fixedLeg, floatLeg := floatLeg,
    payTimes := payTimes, cashFlows := cashFlows }

/-- The call-or-put flag used by `npvRaw` for the Bachelier formula on
the swap rate (Swaption.py line 41): +1 for a payer swap, -1 for a
receiver swap. -/
def Swaption.callOrPutOnS (s : Swaption) : ℚ :=
  if s.underlyingSwap.payerOrReceiver = SwapType.Payer then 1 else -1

/-- Wrapper `Swaption.fairRate` of the source. -/
def Swaption.fairRate (s : Swaption) : ℚ := s.underlyingSwap.fairRate

/-- Wrapper `Swaption.annuity` of the source. -/
def Swaption.annuity (s : Swaption) : ℚ := s.underlyingSwap.annuity

/-- Embedding of `Swaption.npvRaw` (Swaption.py lines 36-42).  The
Bachelier formula lives in Helpers.py, outside src/, so it stays an
abstract function parameter `B strike forward vol T callOrPut`. -/
def Swaption.npvRaw (B : ℚ → ℚ → ℚ → ℚ → ℚ → ℚ) (s : Swaption) : ℚ :=
  let refDate := s.underlyingSwap.disc.referenceDate
  let T := yearFraction refDate s.exerciseDate
  s.annuity * B s.underlyingSwap.fixedRate s.fairRate s.normalVolatility T s.callOrPutOnS

/-- Modelled from the spec: `Swaption.npv` delegates to the external
QuantLib `BachelierSwaptionEngine` (not part of this repository).  Per
the spec it prices under the assigned normal volatility via the
Bachelier engine, scaled by the annuity of the swap: annuity times the
Bachelier price with strike = swap fixed rate, forward = swap fair
rate, the Actual/365-Fixed expiry year fraction, and the payer/receiver
call-put convention (+1 payer, -1 receiver). -/
def Swaption.npv (B : ℚ → ℚ → ℚ → ℚ → ℚ → ℚ) (s : Swaption) : ℚ :=
  s.annuity *
    B s.underlyingSwap.fixedRate s.fairRate s.normalVolatility
      (yearFraction s.underlyingSwap.disc.referenceDate s.exerciseDate)
      s.callOrPutOnS

/-- Result of `npvHullWhite`: the source returns a scalar price for
outFlag "p", a scalar implied volatility for outFlag "v", and the
two-element list [price, vol] for every other flag. -/
inductive HWOut where
  | price : ℚ → HWOut
  | vol : ℚ → HWOut
  | both : ℚ → ℚ → HWOut
deriving DecidableEq

/-- The Hull-White price computed by `npvHullWhite` (Swaption.py lines
82-84): the coupon-bond-option price of the model on the details of the
swaption.  The analytic engine `couponBondOption` lives in
HullWhiteModel.py, outside src/, so it is an abstract function
parameter `cbo expiryTime payTimes cashFlows strike callOrPut`. -/
def Swaption.hwPrice (cbo : ℚ → List ℚ → List ℚ → ℚ → ℚ → ℚ) (s : Swaption) : ℚ :=
  let details := s.bondOptionDetails
  cbo details.expiryTime details.payTimes details.cashFlows details.strike details.callOrPut

/-- The implied volatility computed by `npvHullWhite` (Swaption.py
lines 86-87): the Bachelier implied volatility of the annuity-deflated
Hull-White price at strike = swap fixed rate, forward = swap fair rate,
expiry = details expiryTime, flag = NEGATED details callOrPut.
`BachelierImpliedVol` lives in Helpers.py, outside src/, so it is an
abstract function parameter `biv price strike forward T callOrPut`. -/
def Swaption.hwImpliedVol (cbo : ℚ → List ℚ → List ℚ → ℚ → ℚ → ℚ)
    (biv : ℚ → ℚ → ℚ → ℚ → ℚ → ℚ) (s : Swaption) : ℚ :=
  let details := s.bondOptionDetails
  biv (s.hwPrice cbo / s.annuity) s.underlyingSwap.fixedRate s.underlyingSwap.fairRate
    details.expiryTime (-details.callOrPut)

/-- Embedding of `Swaption.npvHullWhite` (Swaption.py lines 81-89):
outFlag "p" returns the price, "v" the implied volatility, anything
else the pair of both. -/
def Swaption.npvHullWhite (cbo : ℚ → List ℚ → List ℚ → ℚ → ℚ → ℚ)
    (biv : ℚ → ℚ → ℚ → ℚ → ℚ → ℚ) (s : Swaption) (outFlag : String) : HWOut :=
  if outFlag = "p" then HWOut.price (s.hwPrice cbo)
  else if outFlag = "v" then HWOut.vol (s.hwImpliedVol cbo biv)
  else HWOut.both (s.hwPrice cbo) (s.hwImpliedVol cbo biv)

/-- Modelled from the spec: the Hull-White model object of
HullWhiteModel.py (outside src/) is, per the spec, constructed from a
yield curve, a mean-reversion scalar, and parallel time/volatility
sequences (piecewise-constant volatility term structure); its analytic
pricing method stays abstract. -/
structure HullWhiteModel where
  yieldCurve : Curve
  meanReversion : ℚ
  volatilityTimes : List ℚ
  volatilityValues : List ℚ

/-- The single-bucket Hull-White model that `HullWhiteModelFromSwaption`
builds for a volatility level sigma: yield curve of the underlying
swap, the given mean reversion, one volatility time at the expiry of
the swaption, and one volatility value. -/
def calibratedModel (s : Swaption) (meanReversion : ℚ) (sigma : ℚ) : HullWhiteModel :=
  { yieldCurve := s.underlyingSwap.discYieldCurve,
    meanReversion := meanReversion,
    volatilityTimes := [ s.bondOptionDetails.expiryTime ],
    volatilityValues := [ sigma ] }

/-- The calibration objective of `HullWhiteModelFromSwaption`
(Swaption.py lines 114-117): Hull-White price of the single-bucket
model at volatility sigma, minus the Bachelier price of the swaption.
`hw` is the abstract analytic engine of a Hull-White model and `B` the
abstract Bachelier formula. -/
def calibObjective (hw : HullWhiteModel → ℚ → List ℚ → List ℚ → ℚ → ℚ → ℚ)
    (B : ℚ → ℚ → ℚ → ℚ → ℚ → ℚ) (s : Swaption) (meanReversion : ℚ) (sigma : ℚ) : ℚ :=
  s.hwPrice (hw (calibratedModel s meanReversion sigma)) - s.npv B

/-- Embedding of `HullWhiteModelFromSwaption` (Swaption.py lines
111-120).  The scipy root finder `brentq` is external, so it is an
abstract parameter returning either a root or an error; the source
calls it on the objective over the bracket from 0.1 times the initial
volatility to 5 times the initial volatility with xtol 1e-8, and wraps
the root into a fresh single-bucket model. -/
def HullWhiteModelFromSwaption
    (brentq : (ℚ → ℚ) → ℚ → ℚ → ℚ → Except String ℚ)
    (hw : HullWhiteModel → ℚ → List ℚ → List ℚ → ℚ → ℚ → ℚ)
    (B : ℚ → ℚ → ℚ → ℚ → ℚ → ℚ)
    (swaption : Swaption) (meanReversion : ℚ) : Except String HullWhiteModel :=
  let initialGuess := swaption.normalVolatility
  match brentq (calibObjective hw B swaption meanReversion)
      (1/10 * initialGuess) (5 * initialGuess) (1/100000000) with
  | Except.error e => Except.error e
  | Except.ok sigma => Except.ok (calibratedModel swaption meanReversion sigma)

/-- The pay-time sequence as claim C1 words it: the first float accrual
start time, then the accrual-END time of every floating coupon, then
the (accrual-end) payment time of every fixed coupon, then the final
float accrual-end time.  This definition follows the words of the
claim, for comparison with the sequence the source builds. -/
def payTimesClaimC1 (s : Swaption) : List ℚ :=
  let refDate := s.underlyingSwap.disc.referenceDate
  [ yearFraction refDate (s.underlyingSwap.floatingLeg.headD defaultCoupon).accrualStartDate ]
    ++ s.underlyingSwap.floatingLeg.map (fun cf => yearFraction refDate cf.accrualEndDate)
    ++ s.underlyingSwap.fixedLeg.map (fun cf => yearFraction refDate cf.date)
    ++ [ yearFraction refDate (s.underlyingSwap.floatingLeg.getLastD defaultCoupon).accrualEndDate ]

/-- Flat unit discount curve for concrete test inputs. -/
def curve0 : Curve := { referenceDate := 0, discount := fun _ => 1 }

/-- Concrete one-period swap: one floating coupon accruing from day 0
to day 365 and one fixed cashflow paid at day 365. -/
def swap0 : Swap :=
  { fixedLeg := [ { date := 365, amount := 3 } ],
    floatingLeg := [ { accrualStartDate := 0, accrualEndDate := 365,
                       accrualPeriod := 1, rate := 3/100, nominal := 100 } ],
    payerOrReceiver := SwapType.Payer,
    fixedRate := 3/100,
    fairRate := 3/100,
    annuity := 1,
    disc := curve0,
    discYieldCurve := curve0 }

/-- Concrete swaption on `swap0`, exercised at the curve reference
date, with normal volatility 1 percent. -/
def swaption0 : Swaption :=
  { underlyingSwap := swap0, exerciseDate := 0, normalVolatility := 1/100 }

/-- The same swaption with a different normal volatility, for the
determinism claim. -/
def swaption0v2 : Swaption :=
  { underlyingSwap := swap0, exerciseDate := 0, normalVolatility := 2/100 }

/-- C1, counterexample: on the concrete swaption the pay-time sequence
the source assembles is NOT the sequence the claim describes.  The
source takes the accrual START time of every floating coupon (the
float-leg table is built from `accrualStartDate`, Swaption.py line 60),
not the accrual-end time: on `swaption0` the source builds
[0, 0, 1, 1] while the claim describes [0, 1, 1, 1]. -/
theorem claim_C1_counterexample :
    swaption0.bondOptionDetails.payTimes ≠ payTimesClaimC1 swaption0 := by
  norm_num [swaption0, swap0, curve0, Swaption.bondOptionDetails, payTimesClaimC1,
    floatLegEntry, fixedLegEntry, defaultCoupon, yearFraction]

/-- C1, amended: the pay-time sequence is [first float accrual start] +
[float accrual-START times] + [fixed payment times] + [final float
accrual-end time]; consequently the duplicated entry is at the FRONT
(entries 0 and 1 both equal the first float accrual start), while the
last entry is the terminal notional exchange time at the final float
accrual end. -/
theorem claim_C1_amended_payTimes (s : Swaption)
    (hne : s.underlyingSwap.floatingLeg ≠ []) :
    s.bondOptionDetails.payTimes
      = [ yearFraction s.underlyingSwap.disc.referenceDate
            (s.underlyingSwap.floatingLeg.headD defaultCoupon).accrualStartDate ]
        ++ s.underlyingSwap.floatingLeg.map
            (fun cf => yearFraction s.underlyingSwap.disc.referenceDate cf.accrualStartDate)
        ++ s.underlyingSwap.fixedLeg.map
            (fun cf => yearFraction s.underlyingSwap.disc.referenceDate cf.date)
        ++ [ yearFraction s.underlyingSwap.disc.referenceDate
              (s.underlyingSwap.floatingLeg.getLastD defaultCoupon).accrualEndDate ]
    ∧ s.bondOptionDetails.payTimes.getD 0 0 = s.bondOptionDetails.payTimes.getD 1 0 := by
  obtain ⟨c0, cs, hc⟩ := List.exists_cons_of_ne_nil hne
  constructor
  · simp [Swaption.bondOptionDetails, floatLegEntry, fixedLegEntry, hc,
      List.map_map, Function.comp_def]
  · simp [Swaption.bondOptionDetails, floatLegEntry, hc]

/-- C1, witness for the amended theorem at the concrete swaption. -/
theorem claim_C1_amended_witness :
    swaption0.underlyingSwap.floatingLeg ≠ []
    ∧ (swaption0.bondOptionDetails.payTimes
        = [ yearFraction swaption0.underlyingSwap.disc.referenceDate
              (swaption0.underlyingSwap.floatingLeg.headD defaultCoupon).accrualStartDate ]
          ++ swaption0.underlyingSwap.floatingLeg.map
              (fun cf => yearFraction swaption0.underlyingSwap.disc.referenceDate cf.accrualStartDate)
          ++ swaption0.underlyingSwap.fixedLeg.map
              (fun cf => yearFraction swaption0.underlyingSwap.disc.referenceDate cf.date)
          ++ [ yearFraction swaption0.underlyingSwap.disc.referenceDate
                (swaption0.underlyingSwap.floatingLeg.getLastD defaultCoupon).accrualEndDate ]
      ∧ swaption0.bondOptionDetails.payTimes.getD 0 0
          = swaption0.bondOptionDetails.payTimes.getD 1 0) :=
  ⟨by decide, claim_C1_amended_payTimes swaption0 (by decide)⟩

/-- C3: the call-or-put flag of `bondOptionDetails` is +1 for a
receiver swap and -1 for a payer swap, which is the negation of the
Bachelier flag `npvRaw` uses on the swap rate (+1 payer, -1
receiver). -/
theorem claim_C3_callOrPut_convention (s : Swaption) :
    (s.underlyingSwap.payerOrReceiver = SwapType.Receiver →
        s.bondOptionDetails.callOrPut = 1 ∧ s.callOrPutOnS = -1)
    ∧ (s.underlyingSwap.payerOrReceiver = SwapType.Payer →
        s.bondOptionDetails.callOrPut = -1 ∧ s.callOrPutOnS = 1)
    ∧ s.bondOptionDetails.callOrPut = -s.callOrPutOnS := by
  cases h : s.underlyingSwap.payerOrReceiver <;>
    simp [Swaption.bondOptionDetails, Swaption.callOrPutOnS, h]

/-- C3, witness at the concrete (payer) swaption. -/
theorem claim_C3_witness :
    (swaption0.underlyingSwap.payerOrReceiver = SwapType.Receiver →
        swaption0.bondOptionDetails.callOrPut = 1 ∧ swaption0.callOrPutOnS = -1)
    ∧ (swaption0.underlyingSwap.payerOrReceiver = SwapType.Payer →
        swaption0.bondOptionDetails.callOrPut = -1 ∧ swaption0.callOrPutOnS = 1)
    ∧ swaption0.bondOptionDetails.callOrPut = -swaption0.callOrPutOnS :=
  claim_C3_callOrPut_convention swaption0

/-- C4: for any Bachelier formula and any swaption, the manual
cross-check `npvRaw` (annuity times Bachelier at strike = fixed rate,
forward = fair rate, the assigned normal volatility, the
Actual/365-Fixed expiry year fraction and the payer/receiver flag)
coincides exactly with the engine price `npv` as the spec models it, so
in particular the two agree within any solver or engine tolerance. -/
theorem claim_C4_npvRaw_equals_npv (B : ℚ → ℚ → ℚ → ℚ → ℚ → ℚ) (s : Swaption) :
    s.npvRaw B = s.npv B := rfl

/-- C2: for every swaption and every abstract Hull-White engine and
implied-vol inverter, the outFlag "v" branch (and the vol component of
the "pv" branch) of `npvHullWhite` inverts the annuity-deflated
Hull-White price at strike = swap fixed rate, forward = swap fair rate,
and the expiry time of the details, with flag equal to the NEGATION of
the callOrPut flag that the price computation passes to
`couponBondOption`. -/
theorem claim_C2_impliedVol_negated_flag (cbo : ℚ → List ℚ → List ℚ → ℚ → ℚ → ℚ)
    (biv : ℚ → ℚ → ℚ → ℚ → ℚ → ℚ) (s : Swaption) :
    s.npvHullWhite cbo biv "v"
        = HWOut.vol
            (biv
              (cbo s.bondOptionDetails.expiryTime s.bondOptionDetails.payTimes
                  s.bondOptionDetails.cashFlows s.bondOptionDetails.strike
                  s.bondOptionDetails.callOrPut
                / s.annuity)
              s.underlyingSwap.fixedRate s.underlyingSwap.fairRate
              s.bondOptionDetails.expiryTime (-s.bondOptionDetails.callOrPut))
    ∧ s.npvHullWhite cbo biv "pv"
        = HWOut.both
            (cbo s.bondOptionDetails.expiryTime s.bondOptionDetails.payTimes
              s.bondOptionDetails.cashFlows s.bondOptionDetails.strike
              s.bondOptionDetails.callOrPut)
            (biv
              (cbo s.bondOptionDetails.expiryTime s.bondOptionDetails.payTimes
                  s.bondOptionDetails.cashFlows s.bondOptionDetails.strike
                  s.bondOptionDetails.callOrPut
                / s.annuity)
              s.underlyingSwap.fixedRate s.underlyingSwap.fairRate
              s.bondOptionDetails.expiryTime (-s.bondOptionDetails.callOrPut)) := by
  constructor <;>
    simp [Swaption.npvHullWhite, Swaption.hwImpliedVol, Swaption.hwPrice]

/-- C6: the pay times and the cashflows of `bondOptionDetails` have the
same length, namely one initial notional entry plus one entry per
floating coupon plus one entry per fixed coupon plus one terminal
notional entry, and entrywise (via zip) each pay time is paired with
the corresponding cashflow in exactly that order. -/
theorem claim_C6_payTimes_cashFlows_pairing (s : Swaption) :
    s.bondOptionDetails.payTimes.length = s.bondOptionDetails.cashFlows.length
    ∧ s.bondOptionDetails.payTimes.length
        = 1 + s.underlyingSwap.floatingLeg.length + s.underlyingSwap.fixedLeg.length + 1
    ∧ s.bondOptionDetails.payTimes.zip s.bondOptionDetails.cashFlows
        = [ ( (s.bondOptionDetails.floatLeg.headD (0, 0)).1,
              -(s.underlyingSwap.floatingLeg.headD defaultCoupon).nominal ) ]
          ++ s.underlyingSwap.floatingLeg.map (fun cf =>
              ( (floatLegEntry s.underlyingSwap.disc cf).1,
                -(floatLegEntry s.underlyingSwap.disc cf).2 ))
          ++ s.underlyingSwap.fixedLeg.map (fun cf =>
              ( yearFraction s.underlyingSwap.disc.referenceDate cf.date, cf.amount ))
          ++ [ ( yearFraction s.underlyingSwap.disc.referenceDate
                  (s.underlyingSwap.floatingLeg.getLastD defaultCoupon).accrualEndDate,
                 (s.underlyingSwap.floatingLeg.headD defaultCoupon).nominal ) ] := by
  refine ⟨?_, ?_, ?_⟩
  · simp [Swaption.bondOptionDetails]
  · simp [Swaption.bondOptionDetails]
    omega
  · simp only [Swaption.bondOptionDetails, List.singleton_append, List.cons_append,
      List.nil_append, List.append_assoc, List.zip_cons_cons]
    have hF : (List.map Prod.fst
          (List.map (floatLegEntry s.underlyingSwap.disc) s.underlyingSwap.floatingLeg)).length
        = (List.map (fun cf => -cf.2)
          (List.map (floatLegEntry s.underlyingSwap.disc) s.underlyingSwap.floatingLeg)).length := by
      simp
    have hX : (List.map Prod.fst
          (List.map (fixedLegEntry s.underlyingSwap.disc) s.underlyingSwap.fixedLeg)).length
        = (List.map Prod.snd
          (List.map (fixedLegEntry s.underlyingSwap.disc) s.underlyingSwap.fixedLeg)).length := by
      simp
    rw [List.zip_append hF, List.zip_append hX]
    simp [List.map_map, List.zip_map', Function.comp_def, floatLegEntry, fixedLegEntry]

/-- C7: every floating coupon contributes the synthetic amount
((1 + accrualPeriod*rate) * discount(accrualEnd)/discount(accrualStart)
- 1) * nominal, computed from the discount curve of the swap, and in
the assembled cashflow sequence the float coupons carry a negative sign
while the fixed coupons carry a positive sign (short the floating bond,
long the fixed bond, with the notional exchanges at the ends). -/
theorem claim_C7_float_amount_and_signs (s : Swaption) :
    s.bondOptionDetails.floatLeg
      = s.underlyingSwap.floatingLeg.map (fun cf =>
          ( yearFraction s.underlyingSwap.disc.referenceDate cf.accrualStartDate,
            ((1 + cf.accrualPeriod * cf.rate)
                * s.underlyingSwap.disc.discount cf.accrualEndDate
                / s.underlyingSwap.disc.discount cf.accrualStartDate - 1) * cf.nominal ))
    ∧ s.bondOptionDetails.cashFlows
      = [ -(s.underlyingSwap.floatingLeg.headD defaultCoupon).nominal ]
        ++ s.underlyingSwap.floatingLeg.map (fun cf =>
            -(((1 + cf.accrualPeriod * cf.rate)
                * s.underlyingSwap.disc.discount cf.accrualEndDate
                / s.underlyingSwap.disc.discount cf.accrualStartDate - 1) * cf.nominal))
        ++ s.underlyingSwap.fixedLeg.map (fun cf => cf.amount)
        ++ [ (s.underlyingSwap.floatingLeg.headD defaultCoupon).nominal ] := by
  constructor <;>
    simp [Swaption.bondOptionDetails, floatLegEntry, fixedLegEntry, List.map_map,
      Function.comp_def]

/-- C9: `bondOptionDetails` is a deterministic function of the
underlying swap (with its discount curve) and the exercise date: two
swaptions that agree on those fields produce identical details, whatever
their normal volatilities, and in particular repeated calls on one
unmutated swaption agree (there is no cache). -/
theorem claim_C9_details_deterministic (s1 s2 : Swaption)
    (hswap : s1.underlyingSwap = s2.underlyingSwap)
    (hexp : s1.exerciseDate = s2.exerciseDate) :
    s1.bondOptionDetails = s2.bondOptionDetails := by
  cases s1
  cases s2
  cases hswap
  cases hexp
  rfl

/-- C9, witness: the concrete swaption and its copy with a different
normal volatility yield identical details. -/
theorem claim_C9_witness :
    swaption0.underlyingSwap = swaption0v2.underlyingSwap
    ∧ swaption0.exerciseDate = swaption0v2.exerciseDate
    ∧ swaption0.bondOptionDetails = swaption0v2.bondOptionDetails :=
  ⟨rfl, rfl, claim_C9_details_deterministic swaption0 swaption0v2 rfl rfl⟩

/-- C10: any outFlag other than "p" and "v" (for example "x" or the
empty string) makes `npvHullWhite` return the pair of price and implied
volatility, with no validation error; exactly "p" and "v" select the
scalar price and the scalar volatility. -/
theorem claim_C10_outFlag_fallthrough (cbo : ℚ → List ℚ → List ℚ → ℚ → ℚ → ℚ)
    (biv : ℚ → ℚ → ℚ → ℚ → ℚ → ℚ) (s : Swaption) (outFlag : String)
    (hp : outFlag ≠ "p") (hv : outFlag ≠ "v") :
    s.npvHullWhite cbo biv outFlag
        = HWOut.both (s.hwPrice cbo) (s.hwImpliedVol cbo biv)
    ∧ s.npvHullWhite cbo biv "p" = HWOut.price (s.hwPrice cbo)
    ∧ s.npvHullWhite cbo biv "v" = HWOut.vol (s.hwImpliedVol cbo biv) := by
  refine ⟨?_, ?_, ?_⟩ <;> simp [Swaption.npvHullWhite, hp, hv]

/-- Constant zero stand-in for the abstract coupon-bond-option engine,
used in concrete witnesses. -/
def cbo0 : ℚ → List ℚ → List ℚ → ℚ → ℚ → ℚ := fun _ _ _ _ _ => 0

/-- Constant zero stand-in for the abstract Bachelier implied-vol
inverter, used in concrete witnesses. -/
def biv0 : ℚ → ℚ → ℚ → ℚ → ℚ → ℚ := fun _ _ _ _ _ => 0

/-- C10, witness at the malformed flag "x". -/
theorem claim_C10_witness :
    ("x" : String) ≠ "p" ∧ ("x" : String) ≠ "v"
    ∧ (swaption0.npvHullWhite cbo0 biv0 "x"
          = HWOut.both (swaption0.hwPrice cbo0) (swaption0.hwImpliedVol cbo0 biv0)
      ∧ swaption0.npvHullWhite cbo0 biv0 "p" = HWOut.price (swaption0.hwPrice cbo0)
      ∧ swaption0.npvHullWhite cbo0 biv0 "v" = HWOut.vol (swaption0.hwImpliedVol cbo0 biv0)) :=
  ⟨by decide, by decide,
    claim_C10_outFlag_fallthrough cbo0 biv0 swaption0 "x" (by decide) (by decide)⟩

/-- Unfolding lemma for the calibration driver: it is the abstract root
finder run on the calibration objective over the bracket from 0.1 times
the normal volatility of the swaption to 5 times it, with xtol 1e-8,
its root wrapped into the single-bucket model. -/
theorem HullWhiteModelFromSwaption_eq_map
    (brentq : (ℚ → ℚ) → ℚ → ℚ → ℚ → Except String ℚ)
    (hw : HullWhiteModel → ℚ → List ℚ → List ℚ → ℚ → ℚ → ℚ)
    (B : ℚ → ℚ → ℚ → ℚ → ℚ → ℚ) (s : Swaption) (meanReversion : ℚ) :
    HullWhiteModelFromSwaption brentq hw B s meanReversion
      = (brentq (calibObjective hw B s meanReversion)
          (1/10 * s.normalVolatility) (5 * s.normalVolatility)
          (1/100000000)).map (calibratedModel s meanReversion) := by
  cases h : brentq (calibObjective hw B s meanReversion)
      (1/10 * s.normalVolatility) (5 * s.normalVolatility) (1/100000000) <;>
    simp only [HullWhiteModelFromSwaption, h, Except.map]

/-- C5: the calibration driver runs the root finder on the objective
(Hull-White price minus Bachelier price) over the bracket from 0.1
times the normal volatility of the swaption to 5 times it, with
tolerance 1e-8 on the independent variable, and any model it returns is
the single-bucket model (one volatility time, at the expiry of the
swaption) whose Hull-White price under outFlag "p" equals the Bachelier
price of the swaption, given an idealized bracketing solver whose
reported root is exact. -/
theorem claim_C5_calibration
    (brentq : (ℚ → ℚ) → ℚ → ℚ → ℚ → Except String ℚ)
    (hw : HullWhiteModel → ℚ → List ℚ → List ℚ → ℚ → ℚ → ℚ)
    (B : ℚ → ℚ → ℚ → ℚ → ℚ → ℚ) (biv : ℚ → ℚ → ℚ → ℚ → ℚ → ℚ)
    (s : Swaption) (meanReversion : ℚ)
    (hsolver : ∀ f lo hi tol r, brentq f lo hi tol = Except.ok r → f r = 0) :
    HullWhiteModelFromSwaption brentq hw B s meanReversion
        = (brentq (calibObjective hw B s meanReversion)
            (1/10 * s.normalVolatility) (5 * s.normalVolatility)
            (1/100000000)).map (calibratedModel s meanReversion)
    ∧ ∀ M, HullWhiteModelFromSwaption brentq hw B s meanReversion = Except.ok M →
        M.volatilityTimes = [ s.bondOptionDetails.expiryTime ]
        ∧ M.volatilityValues.length = 1
        ∧ M.meanReversion = meanReversion
        ∧ M.yieldCurve = s.underlyingSwap.discYieldCurve
        ∧ s.npvHullWhite (hw M) biv "p" = HWOut.price (s.npv B) := by
  refine ⟨HullWhiteModelFromSwaption_eq_map brentq hw B s meanReversion, ?_⟩
  intro M hM
  rw [HullWhiteModelFromSwaption_eq_map] at hM
  cases h : brentq (calibObjective hw B s meanReversion)
      (1/10 * s.normalVolatility) (5 * s.normalVolatility) (1/100000000) with
  | error e =>
      rw [h] at hM
      simp [Except.map] at hM
  | ok sigma =>
      rw [h] at hM
      simp only [Except.map, Except.ok.injEq] at hM
      have hroot : calibObjective hw B s meanReversion sigma = 0 := hsolver _ _ _ _ _ h
      have hprice : s.hwPrice (hw (calibratedModel s meanReversion sigma)) = s.npv B := by
        have h2 : s.hwPrice (hw (calibratedModel s meanReversion sigma)) - s.npv B = 0 := hroot
        linarith
      subst hM
      exact ⟨rfl, rfl, rfl, rfl, by simp [Swaption.npvHullWhite, hprice]⟩

/-- Constant zero stand-in for the abstract Hull-White analytic engine,
used in concrete witnesses. -/
def hw0 : HullWhiteModel → ℚ → List ℚ → List ℚ → ℚ → ℚ → ℚ := fun _ _ _ _ _ _ => 0

/-- Constant zero stand-in for the abstract Bachelier formula, used in
concrete witnesses. -/
def B0 : ℚ → ℚ → ℚ → ℚ → ℚ → ℚ := fun _ _ _ _ _ => 0

/-- Concrete bracketing solver for witnesses: it answers the lower
bracket end when that point is already a root and reports an error
otherwise. -/
def brentqConst : (ℚ → ℚ) → ℚ → ℚ → ℚ → Except String ℚ :=
  fun f lo _ _ => if f lo = 0 then Except.ok lo else Except.error "no root at lo"

/-- The concrete solver `brentqConst` only reports exact roots. -/
theorem brentqConst_spec :
    ∀ f lo hi tol r, brentqConst f lo hi tol = Except.ok r → f r = 0 := by
  intro f lo hi tol r h
  by_cases hf : f lo = 0
  · simp only [brentqConst, if_pos hf, Except.ok.injEq] at h
    rwa [← h]
  · simp [brentqConst, if_neg hf] at h

/-- C5, witness: the calibration driver with the concrete exact solver,
the zero engine and the zero Bachelier formula on the concrete
swaption. -/
theorem claim_C5_witness :
    (∀ f lo hi tol r, brentqConst f lo hi tol = Except.ok r → f r = 0)
    ∧ (HullWhiteModelFromSwaption brentqConst hw0 B0 swaption0 (1/100)
          = (brentqConst (calibObjective hw0 B0 swaption0 (1/100))
              (1/10 * swaption0.normalVolatility) (5 * swaption0.normalVolatility)
              (1/100000000)).map (calibratedModel swaption0 (1/100))
      ∧ ∀ M, HullWhiteModelFromSwaption brentqConst hw0 B0 swaption0 (1/100) = Except.ok M →
          M.volatilityTimes = [ swaption0.bondOptionDetails.expiryTime ]
          ∧ M.volatilityValues.length = 1
          ∧ M.meanReversion = 1/100
          ∧ M.yieldCurve = swaption0.underlyingSwap.discYieldCurve
          ∧ swaption0.npvHullWhite (hw0 M) biv0 "p" = HWOut.price (swaption0.npv B0)) :=
  ⟨brentqConst_spec,
    claim_C5_calibration brentqConst hw0 B0 biv0 swaption0 (1/100) brentqConst_spec⟩

/-- Modelled from the spec: behaviour of the external scipy brentq root
finder when the bracket carries no sign change.  A solver has this
property when it reports an error whenever the objective takes values
of the same (nonzero) sign at the two bracket ends. -/
def failsWithoutSignChange (brentq : (ℚ → ℚ) → ℚ → ℚ → ℚ → Except String ℚ) : Prop :=
  ∀ f lo hi tol, 0 < f lo * f hi → ∃ e, brentq f lo hi tol = Except.error e

/-- C8: the calibration driver reports an error and returns no model
whenever the root finder fails: every error of the root finder (for
example an exhausted iteration budget) propagates unchanged, and under
the modelled scipy behaviour a bracket without sign change in the
objective always produces an error. -/
theorem claim_C8_calibration_failure
    (brentq : (ℚ → ℚ) → ℚ → ℚ → ℚ → Except String ℚ)
    (hw : HullWhiteModel → ℚ → List ℚ → List ℚ → ℚ → ℚ → ℚ)
    (B : ℚ → ℚ → ℚ → ℚ → ℚ → ℚ) (s : Swaption) (meanReversion : ℚ)
    (hbr : failsWithoutSignChange brentq) :
    (∀ e, brentq (calibObjective hw B s meanReversion)
          (1/10 * s.normalVolatility) (5 * s.normalVolatility) (1/100000000)
            = Except.error e →
        HullWhiteModelFromSwaption brentq hw B s meanReversion = Except.error e)
    ∧ (0 < calibObjective hw B s meanReversion (1/10 * s.normalVolatility)
            * calibObjective hw B s meanReversion (5 * s.normalVolatility) →
        ∃ e, HullWhiteModelFromSwaption brentq hw B s meanReversion = Except.error e) := by
  constructor
  · intro e he
    rw [HullWhiteModelFromSwaption_eq_map, he]
    rfl
  · intro hsign
    obtain ⟨e, he⟩ := hbr _ _ _ _ hsign
    exact ⟨e, by rw [HullWhiteModelFromSwaption_eq_map, he]; rfl⟩

/-- Concrete always-failing root finder for the C8 witness. -/
def brentqErr : (ℚ → ℚ) → ℚ → ℚ → ℚ → Except String ℚ :=
  fun _ _ _ _ => Except.error "no sign change over bracket"

/-- The always-failing solver trivially satisfies the modelled scipy
behaviour. -/
theorem brentqErr_spec : failsWithoutSignChange brentqErr :=
  fun _ _ _ _ _ => ⟨"no sign change over bracket", rfl⟩

/-- C8, witness: with the always-failing concrete solver, calibration of
the concrete swaption reports an error. -/
theorem claim_C8_witness :
    failsWithoutSignChange brentqErr
    ∧ ((∀ e, brentqErr (calibObjective hw0 B0 swaption0 (1/100))
            (1/10 * swaption0.normalVolatility) (5 * swaption0.normalVolatility)
            (1/100000000) = Except.error e →
          HullWhiteModelFromSwaption brentqErr hw0 B0 swaption0 (1/100) = Except.error e)
      ∧ (0 < calibObjective hw0 B0 swaption0 (1/100) (1/10 * swaption0.normalVolatility)
              * calibObjective hw0 B0 swaption0 (1/100) (5 * swaption0.normalVolatility) →
          ∃ e, HullWhiteModelFromSwaption brentqErr hw0 B0 swaption0 (1/100)
                = Except.error e)) :=
  ⟨brentqErr_spec,
    claim_C8_calibration_failure brentqErr hw0 B0 swaption0 (1/100) brentqErr_spec⟩

end QLW
